import Mathlib

/-!
Shallow embedding of the playlist reconciler and the media locator of
`utils.py` (`assign_media_to_playlist`, `find_media_ids_for_names`).

Python/JSON values are modelled by `PyVal`.  Network interaction is
modelled by environments supplying the responses the CMS would return;
every HTTP request the code would issue is recorded in a trace.  An
exception escaping a function is modelled by `Except.error`.
-/

inductive PyVal where
  | pynone
  | pybool (b : Bool)
  | pyint (n : Int)
  | pystr (s : String)
  | pylist (xs : List PyVal)
  | pydict (kvs : List (String × PyVal))

/-- Python truthiness of a value. -/
def truthy : PyVal → Bool
  | .pynone => false
  | .pybool b => b
  | .pyint n => !(n == 0)
  | .pystr s => !(s == "")
  | .pylist xs => !xs.isEmpty
  | .pydict kvs => !kvs.isEmpty

/-- Python `a or b`: the first operand when it is truthy, otherwise the second. -/
def pyOr (a b : PyVal) : PyVal := if truthy a then a else b

/-- Lookup in a dict body, `None` when the key is absent (Python `d.get(k)`). -/
def dGet : List (String × PyVal) → String → PyVal
  | [], _ => .pynone
  | (k1, v) :: rest, k => if k1 == k then v else dGet rest k

/-- Lookup in a dict body with an explicit default (Python `d.get(k, d0)`). -/
def dGetD : List (String × PyVal) → String → PyVal → PyVal
  | [], _, d => d
  | (k1, v) :: rest, k, d => if k1 == k then v else dGetD rest k d

/-- Python `k in d` for a dict body. -/
def hasKeyL : List (String × PyVal) → String → Bool
  | [], _ => false
  | (k1, _) :: rest, k => k1 == k || hasKeyL rest k

/-- Python `v.get(k)`: raises `AttributeError` unless `v` is a dict. -/
def pyGet (v : PyVal) (k : String) : Except String PyVal :=
  match v with
  | .pydict kvs => .ok (dGet kvs k)
  | _ => .error "AttributeError: object has no attribute get"

/-- Python `v.get(k, d)`: raises `AttributeError` unless `v` is a dict. -/
def pyGetD (v : PyVal) (k : String) (d : PyVal) : Except String PyVal :=
  match v with
  | .pydict kvs => .ok (dGetD kvs k d)
  | _ => .error "AttributeError: object has no attribute get"

/-- Python iteration over a value: lists yield their elements, strings their
characters, dicts their keys; other values raise `TypeError`. -/
def pyIter : PyVal → Except String (List PyVal)
  | .pylist xs => .ok xs
  | .pystr s => .ok (s.toList.map (fun c => .pystr (String.singleton c)))
  | .pydict kvs => .ok (kvs.map (fun kv => .pystr kv.1))
  | _ => .error "TypeError: object is not iterable"

def charDigit (c : Char) : Option Nat :=
  if 48 ≤ c.toNat && c.toNat ≤ 57 then some (c.toNat - 48) else none

def digitsValAux : List Char → Nat → Option Nat
  | [], n => some n
  | c :: cs, n =>
    match charDigit c with
    | some d => digitsValAux cs (n * 10 + d)
    | none => none

/-- Integer value of an optional-sign decimal string (45 and 43 are the code
points of the minus and plus signs). -/
def strToInt (s : String) : Option Int :=
  match s.toList with
  | [] => none
  | c :: cs =>
    if c.toNat == 45 then
      (match cs with
       | [] => none
       | _ => (digitsValAux cs 0).map (fun n => -(n : Int)))
    else if c.toNat == 43 then
      (match cs with
       | [] => none
       | _ => (digitsValAux cs 0).map (fun n => (n : Int)))
    else (digitsValAux (c :: cs) 0).map (fun n => (n : Int))

/-- Python `int(v)` as a partial function: `none` models the raised
`ValueError`/`TypeError`.  (Python's `int` additionally strips whitespace
and underscores from strings; every string used in this development is read
identically by both.) -/
def pyToInt : PyVal → Option Int
  | .pyint n => some n
  | .pybool b => some (if b then 1 else 0)
  | .pystr s => strToInt s
  | _ => none

/-- The integer carried by a `PyVal` when it is an integer literal. -/
def asInt : PyVal → Option Int
  | .pyint n => some n
  | _ => none

def isInt : PyVal → Bool
  | .pyint _ => true
  | _ => false

/-- Python `v == s` for a string `s` on the right: only a string compares equal. -/
def pyEqStr (v : PyVal) (s : String) : Bool :=
  match v with
  | .pystr t => t == s
  | _ => false

def charsLead : List Char → List Char → Bool
  | [], _ => true
  | _ :: _, [] => false
  | a :: as, b :: bs => a == b && charsLead as bs

def charsWithin (needle : List Char) : List Char → Bool
  | [] => needle.isEmpty
  | c :: cs => charsLead needle (c :: cs) || charsWithin needle cs

/-- Python `needle in hay` for strings: contiguous substring test. -/
def strContains (hay needle : String) : Bool := charsWithin needle.toList hay.toList

/-- Python `name in (v or "")`: substring test on strings, membership on
lists and dicts, `TypeError` on truthy non-container values. -/
def pyInFilename (name : String) (v : PyVal) : Except String Bool :=
  match pyOr v (.pystr "") with
  | .pystr t => .ok (strContains t name)
  | .pylist xs => .ok (xs.any (fun x => pyEqStr x name))
  | .pydict kvs => .ok (kvs.any (fun kv => kv.1 == name))
  | _ => .error "TypeError: argument is not iterable"

/-- The match test of `find_media_ids_for_names`:
`item.get("fileName") == name or item.get("name") == name or name in (item.get("fileName") or "")`. -/
def pyMatchName (name : String) (fn nm : PyVal) : Except String Bool :=
  if pyEqStr fn name then .ok true
  else if pyEqStr nm name then .ok true
  else pyInFilename name fn

mutual

/-- Rendering of a value inside an f-string.  This approximates Python
`str()` (nested values are not quoted); note text produced from it is only
ever compared against itself in this development. -/
def pyStr : PyVal → String
  | .pynone => "None"
  | .pybool b => if b then "True" else "False"
  | .pyint n => toString n
  | .pystr s => s
  | .pylist xs => "[" ++ pyStrItems xs ++ "]"
  | .pydict kvs => "\x7b" ++ pyStrFields kvs ++ "\x7d"

def pyStrItems : List PyVal → String
  | [] => ""
  | [x] => pyStr x
  | x :: y :: rest => pyStr x ++ ", " ++ pyStrItems (y :: rest)

def pyStrFields : List (String × PyVal) → String
  | [] => ""
  | [(k, v)] => k ++ ": " ++ pyStr v
  | (k, v) :: f :: rest => k ++ ": " ++ pyStr v ++ ", " ++ pyStrFields (f :: rest)

end

def intListStr (vs : List Int) : String :=
  "[" ++ String.intercalate ", " (vs.map toString) ++ "]"

/-- Rendering of the widget map, mirroring Python dict repr. -/
def mapStr (m : List (Int × List Int)) : String :=
  "\x7b" ++ String.intercalate ", " (m.map (fun kv => toString kv.1 ++ ": " ++ intListStr kv.2)) ++ "\x7d"

/-- An HTTP response: status code, decoded JSON body (`none` models a body on
which `.json()` raises), and raw text. -/
structure Response where
  status : Nat
  body : Option PyVal
  text : String

/-- Outcome of one `requests` call: a request-level exception
(connection error / timeout) or a response. -/
inductive NetResult where
  | err (msg : String)
  | ok (r : Response)

/-- `r.raise_for_status()` followed by `r.json()`: a request-level exception,
an HTTP 4xx/5xx status, or an undecodable body all surface as
`requests.exceptions.RequestException` (requests' JSON decode error is a
`RequestException` subclass). -/
def respOutcome : NetResult → Except String PyVal
  | .err e => .error e
  | .ok r =>
    if 400 ≤ r.status && r.status < 600 then .error ("HTTPError: " ++ toString r.status)
    else
      match r.body with
      | none => .error "JSONDecodeError: invalid body"
      | some v => .ok v

/-- The HTTP requests the code issues, in order. -/
inductive Request where
  | fetchPlaylist (playlistId : Int)
  | deleteWidget (widgetId : Int)
  | assignMedia (playlistId : Int) (body : PyVal)
  | libSearch (param : String) (value : String)

def isAssignReq : Request → Bool
  | .assignMedia _ _ => true
  | _ => false

def isDeleteReq : Request → Bool
  | .deleteWidget _ => true
  | _ => false

/-- The dict returned by `assign_media_to_playlist`. -/
structure ReconcileOutput where
  deleted : List (Int × Int)
  assigned : Option PyVal
  notes : List String

/-- Server behaviour for one `assign_media_to_playlist` call: the playlist
fetch result, the result of the k-th widget delete request, and the assign
result. -/
structure ReconcileEnv where
  fetchResult : NetResult
  deleteResult : Nat → NetResult
  assignResult : NetResult

/-- Mutable state of the deletion phase: `deleted` and `notes` accumulators,
the request trace so far, and the number of delete calls already issued. -/
structure LoopState where
  deleted : List (Int × Int)
  notes : List String
  trace : List Request
  calls : Nat

/-- `widget_map.setdefault(mid_int, []).append(int(wid))`. -/
def setdefaultAppend : List (Int × List Int) → Int → Int → List (Int × List Int)
  | [], k, v => [(k, [v])]
  | (k1, vs) :: rest, k, v =>
    if k1 == k then (k1, vs ++ [v]) :: rest else (k1, vs) :: setdefaultAppend rest k v

/-- `widget_map.get(mid_int, [])`. -/
def mapLookup : List (Int × List Int) → Int → List Int
  | [], _ => []
  | (k1, vs) :: rest, k => if k1 == k then vs else mapLookup rest k

/-- Insert a list of (mediaId, widgetId) pairs in order. -/
def addPairs : List (Int × List Int) → List (Int × Int) → List (Int × List Int)
  | m, [] => m
  | m, q :: qs => addPairs (setdefaultAppend m q.1 q.2) qs

/-- One iteration of `for mid in mids` (utils.py lines 60-65): `int(mid)`
failure is caught and skipped, but `int(wid)` is evaluated outside the
`try` and raises for a truthy non-coercible widget id. -/
def addMid (wid : PyVal) (m : List (Int × List Int)) (mid : PyVal) :
    Except String (List (Int × List Int)) :=
  match pyToInt mid with
  | none => .ok m
  | some midInt =>
    match pyToInt wid with
    | none => .error "ValueError: invalid literal for int()"
    | some widInt => .ok (setdefaultAppend m midInt widInt)

def addMids (wid : PyVal) : List PyVal → List (Int × List Int) →
    Except String (List (Int × List Int))
  | [], m => .ok m
  | x :: xs, m =>
    match addMid wid m x with
    | .error e => .error e
    | .ok m1 => addMids wid xs m1

/-- Processing of one widget (utils.py lines 48-65). -/
def processWidget (m : List (Int × List Int)) (w : PyVal) :
    Except String (List (Int × List Int)) :=
  match pyGet w "widgetId" with
  | .error e => .error e
  | .ok widA =>
    match pyGet w "id" with
    | .error e => .error e
    | .ok widB =>
      if !truthy (pyOr widA widB) then .ok m
      else
        match pyGet w "mediaIds" with
        | .error e => .error e
        | .ok midsVal =>
          if hasKeyL (match w with | .pydict kvs => kvs | _ => []) "mediaIds" && truthy midsVal then
            match pyIter (pyOr midsVal (.pylist [])) with
            | .error e => .error e
            | .ok mids => addMids (pyOr widA widB) mids m
          else
            match pyGet w "mediaId" with
            | .error e => .error e
            | .ok single =>
              if truthy single then addMids (pyOr widA widB) [single] m
              else addMids (pyOr widA widB) [] m

def processWidgets : List PyVal → List (Int × List Int) →
    Except String (List (Int × List Int))
  | [], m => .ok m
  | w :: ws, m =>
    match processWidget m w with
    | .error e => .error e
    | .ok m1 => processWidgets ws m1

/-- `widgets.extend(p.get("widgets", []) or []); widgets.extend(p.get("newWidgets", []) or [])`. -/
def collectWidgets (p : PyVal) : Except String (List PyVal) :=
  match pyGetD p "widgets" (.pylist []) with
  | .error e => .error e
  | .ok a =>
    match pyIter (pyOr a (.pylist [])) with
    | .error e => .error e
    | .ok xs =>
      match pyGetD p "newWidgets" (.pylist []) with
      | .error e => .error e
      | .ok b =>
        match pyIter (pyOr b (.pylist [])) with
        | .error e => .error e
        | .ok ys => .ok (xs ++ ys)

/-- Step 2 of the reconciler: build `widget_map : mediaId -> [widgetId, ...]`. -/
def buildWidgetMap (p : PyVal) : Except String (List (Int × List Int)) :=
  match collectWidgets p with
  | .error e => .error e
  | .ok ws => processWidgets ws []

def fetchFailNote (e : String) : String := s!"Failed to fetch playlist: {e}"

def notFoundNote (pid : Int) (plist : PyVal) : String :=
  s!"Playlist {pid} not found or empty response: {pyStr plist}"

def discoveredNote (pid : Int) (wmap : List (Int × List Int)) : String :=
  s!"Discovered widgets for playlist {pid}: {mapStr wmap}"

def invalidMidNote (mid : PyVal) : String := s!"Skipping invalid media id: {pyStr mid}"

def noWidgetNote (midInt : Int) : String :=
  s!"No widget found for mediaId {midInt} in discovered mapping"

def reqErrNote (wid : Int) (e : String) : String :=
  s!"Request error deleting widget {wid}: {e}"

def delOkNote (wid midInt : Int) : String := s!"Deleted widget {wid} for media {midInt}"

def delFailNote (wid midInt : Int) (st : Nat) (tx : String) : String :=
  s!"Failed to delete widget {wid} (media {midInt}): {st} {tx}"

def assignOkNote (pid : Int) : String := s!"Assigned new media to playlist {pid}"

def assignFailNote (e : String) : String := s!"Failed to assign new media: {e}"

def noWidgetsNote (pid : Int) : String :=
  s!"No widgets discovered for playlist {pid}; creating widgets by assigning media."

def nothingToAssignNote : String := "No new_media_ids provided; nothing to assign."

def assignCreatedNote (pid : Int) : String :=
  s!"Assigned new media to playlist {pid} (created widgets)."

/-- One widget deletion (utils.py lines 80-90): a request-level failure or a
status outside 200/204 records a note; 200/204 records the pair. -/
def deleteStep (env : ReconcileEnv) (midInt : Int) (s : LoopState) (wid : Int) : LoopState :=
  match env.deleteResult s.calls with
  | .err e =>
    { s with
        calls := s.calls + 1, trace := s.trace ++ [Request.deleteWidget wid],
        notes := s.notes ++ [reqErrNote wid e] }
  | .ok r =>
    if r.status == 200 || r.status == 204 then
      { s with
          calls := s.calls + 1, trace := s.trace ++ [Request.deleteWidget wid],
          deleted := s.deleted ++ [(midInt, wid)],
          notes := s.notes ++ [delOkNote wid midInt] }
    else
      { s with
          calls := s.calls + 1, trace := s.trace ++ [Request.deleteWidget wid],
          notes := s.notes ++ [delFailNote wid midInt r.status r.text] }

def deleteWids (env : ReconcileEnv) (midInt : Int) : List Int → LoopState → LoopState
  | [], s => s
  | w :: ws, s => deleteWids env midInt ws (deleteStep env midInt s w)

/-- One iteration of `for mid in old_media_ids` (utils.py lines 70-90). -/
def processOldMid (env : ReconcileEnv) (wmap : List (Int × List Int))
    (s : LoopState) (mid : PyVal) : LoopState :=
  match pyToInt mid with
  | none => { s with notes := s.notes ++ [invalidMidNote mid] }
  | some midInt =>
    if (mapLookup wmap midInt).isEmpty then { s with notes := s.notes ++ [noWidgetNote midInt] }
    else deleteWids env midInt (mapLookup wmap midInt) s

def runDeletions (env : ReconcileEnv) (wmap : List (Int × List Int)) :
    List PyVal → LoopState → LoopState
  | [], s => s
  | mid :: rest, s => runDeletions env wmap rest (processOldMid env wmap s mid)

def initLoopState (pid : Int) (wmap : List (Int × List Int)) : LoopState :=
  { deleted := [], notes := [discoveredNote pid wmap],
    trace := [Request.fetchPlaylist pid], calls := 0 }

def assignReqFor (pid : Int) (nids : List PyVal) : Request :=
  Request.assignMedia pid (.pydict [("media", .pylist nids)])

/-- The deletion phase of a call, starting from the freshly built map. -/
def delPhase (env : ReconcileEnv) (pid : Int) (oids : List PyVal)
    (wmap : List (Int × List Int)) : LoopState :=
  runDeletions env wmap oids (initLoopState pid wmap)

/-- Step 5 (utils.py lines 110-128): no widgets discovered. -/
def branchEmptyMap (env : ReconcileEnv) (pid : Int) (nids : List PyVal) :
    ReconcileOutput × List Request :=
  if nids.isEmpty then
    ({ deleted := [], assigned := none,
       notes := [noWidgetsNote pid, nothingToAssignNote] }, [Request.fetchPlaylist pid])
  else
    match respOutcome env.assignResult with
    | .ok payload =>
      ({ deleted := [], assigned := some payload,
         notes := [noWidgetsNote pid, assignCreatedNote pid] },
       [Request.fetchPlaylist pid, assignReqFor pid nids])
    | .error e =>
      ({ deleted := [], assigned := none,
         notes := [noWidgetsNote pid, assignFailNote e] },
       [Request.fetchPlaylist pid, assignReqFor pid nids])

/-- Steps 3-4 (utils.py lines 68-108): widgets were discovered. -/
def branchNonEmpty (env : ReconcileEnv) (pid : Int) (nids oids : List PyVal)
    (wmap : List (Int × List Int)) : ReconcileOutput × List Request :=
  if nids.isEmpty then
    ({ deleted := (delPhase env pid oids wmap).deleted, assigned := none,
       notes := (delPhase env pid oids wmap).notes }, (delPhase env pid oids wmap).trace)
  else
    match respOutcome env.assignResult with
    | .ok payload =>
      ({ deleted := (delPhase env pid oids wmap).deleted, assigned := some payload,
         notes := (delPhase env pid oids wmap).notes ++ [assignOkNote pid] },
       (delPhase env pid oids wmap).trace ++ [assignReqFor pid nids])
    | .error e =>
      ({ deleted := (delPhase env pid oids wmap).deleted, assigned := none,
         notes := (delPhase env pid oids wmap).notes ++ [assignFailNote e] },
       (delPhase env pid oids wmap).trace ++ [assignReqFor pid nids])

/-- The reconciler after a successfully parsed first playlist element. -/
def afterParse (env : ReconcileEnv) (pid : Int) (nids oids : List PyVal) (p : PyVal) :
    Except String (ReconcileOutput × List Request) :=
  match buildWidgetMap p with
  | .error e => .error e
  | .ok wmap =>
    .ok (if wmap.isEmpty then branchEmptyMap env pid nids
         else branchNonEmpty env pid nids oids wmap)

/-- `assign_media_to_playlist` of utils.py.  The result pairs the returned
dict with the trace of issued requests; `Except.error` models an uncaught
exception crossing the function boundary. -/
def assign_media_to_playlist (env : ReconcileEnv) (pid : Int)
    (nids oids : List PyVal) : Except String (ReconcileOutput × List Request) :=
  match respOutcome env.fetchResult with
  | .error e =>
    .ok ({ deleted := [], assigned := none, notes := [fetchFailNote e] },
         [Request.fetchPlaylist pid])
  | .ok plist =>
    match plist with
    | .pylist (p :: _) => afterParse env pid nids oids p
    | _ =>
      .ok ({ deleted := [], assigned := none, notes := [notFoundNote pid plist] },
           [Request.fetchPlaylist pid])

/-- Server behaviour for `find_media_ids_for_names`: the result of
`GET /library?{param}={value}`. -/
structure LocatorEnv where
  resp : String → String → NetResult

/-- Processing of one library record (utils.py lines 162-169).  A record
whose identifier chain is falsy is skipped before the match test; a matched
record's identifier goes through `int(mid)`, which is outside the `try`
block and raises on a truthy non-coercible value. -/
def itemStep (name : String) (acc : List Int) (item : PyVal) : Except String (List Int) :=
  match item with
  | .pydict kvs =>
    if !truthy (pyOr (pyOr (dGet kvs "mediaId") (dGet kvs "media_id")) (dGet kvs "id")) then
      .ok acc
    else
      match pyMatchName name (dGet kvs "fileName") (dGet kvs "name") with
      | .error e => .error e
      | .ok false => .ok acc
      | .ok true =>
        match pyToInt (pyOr (pyOr (dGet kvs "mediaId") (dGet kvs "media_id")) (dGet kvs "id")) with
        | none => .error "ValueError: invalid literal for int()"
        | some v => .ok (acc ++ [v])
  | _ => .error "AttributeError: object has no attribute get"

def scanItems (name : String) (acc : List Int) : List PyVal → Except String (List Int)
  | [] => .ok acc
  | item :: rest =>
    match itemStep name acc item with
    | .error e => .error e
    | .ok acc1 => scanItems name acc1 rest

/-- One lookup attempt (the `try` block plus record scan, utils.py lines
153-169).  `.ok none` models the `continue` taken when the request fails,
the status is not 200, or the body does not decode: the per-strategy break
test is then not reached.  Errors raised by the record scan propagate. -/
def libAttempt (env : LocatorEnv) (name param : String) (acc : List Int) :
    Except String (Option (List Int)) :=
  match env.resp param name with
  | .err _ => .ok none
  | .ok r =>
    if !(r.status == 200) then .ok none
    else
      match r.body with
      | none => .ok none
      | some data =>
        match pyIter data with
        | .error e => .error e
        | .ok items =>
          match scanItems name acc items with
          | .error e => .error e
          | .ok acc1 => .ok (some acc1)

/-- The three query-parameter strategies, in priority order. -/
def strategyParams : List String := ["fileName", "name", "search"]

/-- The `for params in tried` loop: after a completed scan, break as soon as
the accumulated result for this name is non-empty. -/
def tryStrategies (env : LocatorEnv) (name : String) :
    List String → List Int → List Request → Except String (List Int × List Request)
  | [], acc, tr => .ok (acc, tr)
  | param :: rest, acc, tr =>
    match libAttempt env name param acc with
    | .error e => .error e
    | .ok none => tryStrategies env name rest acc (tr ++ [Request.libSearch param name])
    | .ok (some acc1) =>
      if acc1.isEmpty then tryStrategies env name rest acc1 (tr ++ [Request.libSearch param name])
      else .ok (acc1, tr ++ [Request.libSearch param name])

/-- Python dict write `result[k] = v` (first occurrence keeps its position). -/
def dictSet : List (String × List Int) → String → List Int → List (String × List Int)
  | [], k, v => [(k, v)]
  | (k1, v1) :: rest, k, v =>
    if k1 == k then (k1, v) :: rest else (k1, v1) :: dictSet rest k v

def findGo (env : LocatorEnv) : List String → List (String × List Int) → List Request →
    Except String (List (String × List Int) × List Request)
  | [], res, tr => .ok (res, tr)
  | name :: rest, res, tr =>
    match tryStrategies env name strategyParams [] tr with
    | .error e => .error e
    | .ok (ids, tr1) => findGo env rest (dictSet (dictSet res name []) name ids) tr1

/-- `find_media_ids_for_names` of utils.py: the result dict paired with the
trace of issued library queries; `Except.error` models an uncaught
exception crossing the function boundary. -/
def find_media_ids_for_names (env : LocatorEnv) (filenames : List String) :
    Except String (List (String × List Int) × List Request) :=
  findGo env filenames [] []

def exceptIsOk {α : Type} : Except String α → Bool
  | .ok _ => true
  | .error _ => false

/-- Nonzero integer or absent: the identifier shapes under which Python
truthiness agrees with presence. -/
def isNzIntOrNone : PyVal → Bool
  | .pynone => true
  | .pyint n => !(n == 0)
  | _ => false

/-- Modelled from the spec wording (claim C1): a widget's media references
come from the plural-list field `mediaIds` when it holds a non-empty list,
otherwise from the singular-scalar field `mediaId`. -/
def specWidgetRefs (w : PyVal) : List Int :=
  match w with
  | .pydict kvs =>
    (match dGet kvs "mediaIds" with
     | .pylist (x :: xs) => (x :: xs).filterMap asInt
     | _ =>
       match dGet kvs "mediaId" with
       | .pyint n => [n]
       | _ => [])
  | _ => []

/-- Modelled from the spec wording: a widget's identifier is its `widgetId`
field, or else its `id` field, when that is a nonzero integer. -/
def specWidgetId (w : PyVal) : Option Int :=
  match w with
  | .pydict kvs =>
    (match pyOr (dGet kvs "widgetId") (dGet kvs "id") with
     | .pyint n => if n == 0 then none else some n
     | _ => none)
  | _ => none

/-- The (mediaId, widgetId) pairs one widget contributes, per the spec. -/
def specWidgetPairs (w : PyVal) : List (Int × Int) :=
  match specWidgetId w with
  | some wid => (specWidgetRefs w).map (fun m => (m, wid))
  | none => []

def pairsOfWidgets : List PyVal → List (Int × Int)
  | [] => []
  | w :: ws => specWidgetPairs w ++ pairsOfWidgets ws

/-- Modelled from the spec wording (claim C1): the widget collection is
exposed under `widgets` and/or `newWidgets`. -/
def specWidgetList (p : PyVal) : List PyVal :=
  match p with
  | .pydict kvs =>
    (match dGet kvs "widgets" with | .pylist xs => xs | _ => []) ++
    (match dGet kvs "newWidgets" with | .pylist xs => xs | _ => [])
  | _ => []

/-- All (mediaId, widgetId) pairs of a playlist, in scan order, per the spec. -/
def specPairs (p : PyVal) : List (Int × Int) := pairsOfWidgets (specWidgetList p)

/-- A well-formed widget: a dict whose identifier fields are absent or
nonzero integers and whose media-reference fields are an integer list
(plural) or an absent/nonzero-integer scalar (singular). -/
def wfWidget (w : PyVal) : Bool :=
  match w with
  | .pydict kvs =>
    isNzIntOrNone (dGet kvs "widgetId") && isNzIntOrNone (dGet kvs "id") &&
    (match dGet kvs "mediaIds" with
     | .pynone => true
     | .pylist xs => xs.all isInt
     | _ => false) &&
    isNzIntOrNone (dGet kvs "mediaId")
  | _ => false

/-- A well-formed playlist object: a dict whose widget collections, when
present, are lists of well-formed widgets. -/
def wfPlaylist (p : PyVal) : Bool :=
  match p with
  | .pydict kvs =>
    (match dGet kvs "widgets" with
     | .pynone => true
     | .pylist xs => xs.all wfWidget
     | _ => false) &&
    (match dGet kvs "newWidgets" with
     | .pynone => true
     | .pylist xs => xs.all wfWidget
     | _ => false)
  | _ => false

/-- A well-formed library record: a dict whose effective identifier, when
truthy, is integer-coercible, and whose `fileName` field can appear on the
right of Python `in`. -/
def wfLibItem (v : PyVal) : Bool :=
  match v with
  | .pydict kvs =>
    (!truthy (pyOr (pyOr (dGet kvs "mediaId") (dGet kvs "media_id")) (dGet kvs "id")) ||
      (pyToInt (pyOr (pyOr (dGet kvs "mediaId") (dGet kvs "media_id")) (dGet kvs "id"))).isSome) &&
    (match pyOr (dGet kvs "fileName") (.pystr "") with
     | .pystr _ => true
     | .pylist _ => true
     | .pydict _ => true
     | _ => false)
  | _ => false

/-- A library response the locator scan cannot raise on. -/
def wfLibResp : NetResult → Bool
  | .err _ => true
  | .ok r =>
    if !(r.status == 200) then true
    else
      match r.body with
      | none => true
      | some (.pylist items) => items.all wfLibItem
      | some _ => false

/-- The conditions under which the reconciler's initial fetch step
early-returns: the fetch raised (request failure, 4xx/5xx status, or body
that does not decode), or the decoded response is not a non-empty list. -/
def earlyFetchFailure (nr : NetResult) : Bool :=
  match respOutcome nr with
  | .error _ => true
  | .ok v =>
    match v with
    | .pylist (_ :: _) => false
    | _ => true

/-- A delete outcome the code records as a failure: a request-level
exception, or a response whose status is neither 200 nor 204. -/
def deleteFailed : NetResult → Bool
  | .err _ => true
  | .ok r => !(r.status == 200 || r.status == 204)

/-- The note the deletion loop records for a failed delete. -/
def failNoteOf (midInt wid : Int) (nr : NetResult) : String :=
  match nr with
  | .err e => reqErrNote wid e
  | .ok r => delFailNote wid midInt r.status r.text

/-- A playlist mixing all reference shapes: a widget under `widgets` using
the plural list, and a widget under `newWidgets` using the singular scalar
and the `id` variant, sharing media 1. -/
def mixedPlaylist : PyVal :=
  .pydict
    [("widgets", .pylist [.pydict [("widgetId", .pyint 10), ("mediaIds", .pylist [.pyint 1, .pyint 2])]]),
     ("newWidgets", .pylist [.pydict [("id", .pyint 11), ("mediaId", .pyint 1)]])]

/-- A playlist whose only widget has a truthy non-coercible widget id and a
coercible media reference. -/
def badWidPlaylist : PyVal :=
  .pydict [("widgets", .pylist [.pydict [("widgetId", .pystr "x"), ("mediaIds", .pylist [.pyint 5])]])]

/-- One widget under `widgets` with `widgetId` 10 referencing media 1 via
the singular field. -/
def oneWidgetPlaylist : PyVal :=
  .pydict [("widgets", .pylist [.pydict [("widgetId", .pyint 10), ("mediaId", .pyint 1)]])]

/-- Fetch answers 304 (not an error for `raise_for_status`) with a decoded
non-empty list body whose playlist object carries no widgets. -/
def env304 : ReconcileEnv :=
  { fetchResult := .ok { status := 304, body := some (.pylist [.pydict []]), text := "" },
    deleteResult := fun _ => .err "unused",
    assignResult := .ok { status := 200, body := some (.pydict [("ok", .pybool true)]), text := "" } }

def envFetchErr : ReconcileEnv :=
  { fetchResult := .err "connection refused",
    deleteResult := fun _ => .err "unused",
    assignResult := .err "unused" }

/-- Fetch succeeds with `oneWidgetPlaylist`; deletes succeed with 204; the
assign call succeeds. -/
def envOneWidget : ReconcileEnv :=
  { fetchResult := .ok { status := 200, body := some (.pylist [oneWidgetPlaylist]), text := "" },
    deleteResult := fun _ => .ok { status := 204, body := some .pynone, text := "" },
    assignResult := .ok { status := 200, body := some (.pydict [("ok", .pybool true)]), text := "" } }

/-- Fetch succeeds with a widgetless playlist object; the assign call
succeeds. -/
def envNoWidgets : ReconcileEnv :=
  { fetchResult := .ok { status := 200, body := some (.pylist [.pydict []]), text := "" },
    deleteResult := fun _ => .err "unused",
    assignResult := .ok { status := 200, body := some (.pydict [("ok", .pybool true)]), text := "" } }

/-- The first delete request fails at request level; every later delete
succeeds with 204. -/
def envDelMixed : ReconcileEnv :=
  { fetchResult := .err "unused",
    deleteResult := fun k => if k == 0 then .err "timeout" else .ok { status := 204, body := some .pynone, text := "" },
    assignResult := .err "unused" }

/-- The by-filename strategy returns a record that matches the queried name
but has a truthy non-coercible identifier. -/
def envBadId : LocatorEnv :=
  { resp := fun param _ =>
      if param == "fileName" then
        .ok { status := 200,
              body := some (.pylist [.pydict [("mediaId", .pystr "abc"), ("fileName", .pystr "a")]]),
              text := "" }
      else .ok { status := 404, body := none, text := "" } }

/-- Every strategy returns one well-formed matching record with id 3. -/
def envGoodLib : LocatorEnv :=
  { resp := fun _ _ =>
      .ok { status := 200,
            body := some (.pylist [.pydict [("fileName", .pystr "a"), ("mediaId", .pyint 3)]]),
            text := "" } }

/-- The by-filename strategy returns a matching record that lacks any
identifier; the by-name strategy returns a matching record with id 7. -/
def envMatchNoId : LocatorEnv :=
  { resp := fun param _ =>
      if param == "fileName" then
        .ok { status := 200, body := some (.pylist [.pydict [("fileName", .pystr "a")]]), text := "" }
      else if param == "name" then
        .ok { status := 200,
              body := some (.pylist [.pydict [("name", .pystr "a"), ("mediaId", .pyint 7)]]),
              text := "" }
      else .ok { status := 200, body := some (.pylist []), text := "" } }

/-- The first two strategies return empty result lists; the substring-search
strategy returns a record whose file name contains the queried name. -/
def envFallback : LocatorEnv :=
  { resp := fun param _ =>
      if param == "search" then
        .ok { status := 200,
              body := some (.pylist [.pydict [("fileName", .pystr "abc"), ("mediaId", .pyint 9)]]),
              text := "" }
      else .ok { status := 200, body := some (.pylist []), text := "" } }

theorem hasKeyL_false_dGet (k : String) :
    ∀ kvs : List (String × PyVal), hasKeyL kvs k = false → dGet kvs k = .pynone := by
  intro kvs
  induction kvs with
  | nil => intro _; rfl
  | cons hd tl ih =>
    obtain ⟨k1, v⟩ := hd
    intro h
    rw [hasKeyL, Bool.or_eq_false_iff] at h
    rw [dGet, if_neg (by rw [h.1]; exact Bool.false_ne_true)]
    exact ih h.2

theorem mapLookup_setdefaultAppend (k v k1 : Int) :
    ∀ m : List (Int × List Int),
      mapLookup (setdefaultAppend m k v) k1 =
        mapLookup m k1 ++ (if k == k1 then [v] else []) := by
  intro m
  induction m with
  | nil =>
    by_cases h : k = k1
    · subst h; simp [setdefaultAppend, mapLookup]
    · simp [setdefaultAppend, mapLookup, h, (by exact fun hc => h (by exact_mod_cast beq_iff_eq.mp hc) : ¬(k == k1) = true)]
  | cons hd tl ih =>
    obtain ⟨k0, vs⟩ := hd
    by_cases h0 : k0 = k
    · subst h0
      by_cases h1 : k0 = k1
      · subst h1; simp [setdefaultAppend, mapLookup]
      · simp [setdefaultAppend, mapLookup, h1]
    · by_cases h1 : k0 = k1
      · subst h1
        simp [setdefaultAppend, mapLookup, Ne.symm h0, h0]
      · simp [setdefaultAppend, mapLookup, h0, h1, ih]

theorem mapLookup_addPairs (k : Int) :
    ∀ (ps : List (Int × Int)) (m : List (Int × List Int)),
      mapLookup (addPairs m ps) k =
        mapLookup m k ++ (ps.filter (fun q => q.1 == k)).map Prod.snd := by
  intro ps
  induction ps with
  | nil => intro m; simp [addPairs]
  | cons q qs ih =>
    intro m
    rw [addPairs, ih, mapLookup_setdefaultAppend]
    by_cases h : q.1 = k
    · simp [List.filter_cons, h, List.append_assoc]
    · simp [List.filter_cons, h]

theorem addPairs_append :
    ∀ (a b : List (Int × Int)) (m : List (Int × List Int)),
      addPairs m (a ++ b) = addPairs (addPairs m a) b := by
  intro a
  induction a with
  | nil => intro b m; simp [addPairs]
  | cons q qs ih => intro b m; simp [addPairs, ih]

theorem addMids_ok (wid : PyVal) (n : Int) (h : pyToInt wid = some n) :
    ∀ (xs : List PyVal) (m : List (Int × List Int)),
      addMids wid xs m = .ok (addPairs m ((xs.filterMap pyToInt).map (fun k => (k, n)))) := by
  intro xs
  induction xs with
  | nil => intro m; simp [addMids, addPairs]
  | cons x rest ih =>
    intro m
    rw [addMids, addMid]
    cases hx : pyToInt x with
    | none => simp [hx, ih, List.filterMap_cons]
    | some k => simp [hx, h, ih, List.filterMap_cons, addPairs]

theorem filterMap_pyToInt_allInt :
    ∀ xs : List PyVal, xs.all isInt = true → xs.filterMap pyToInt = xs.filterMap asInt := by
  intro xs
  induction xs with
  | nil => intro _; rfl
  | cons x rest ih =>
    intro h
    rw [List.all_cons, Bool.and_eq_true] at h
    cases x with
    | pyint n => simp [List.filterMap_cons, pyToInt, asInt, ih h.2]
    | pynone => exact Bool.noConfusion h.1
    | pybool b => exact Bool.noConfusion h.1
    | pystr s => exact Bool.noConfusion h.1
    | pylist xs => exact Bool.noConfusion h.1
    | pydict kvs => exact Bool.noConfusion h.1

theorem isNzIntOrNone_cases (v : PyVal) (h : isNzIntOrNone v = true) :
    v = .pynone ∨ ∃ n : Int, n ≠ 0 ∧ v = .pyint n := by
  cases v with
  | pynone => exact Or.inl rfl
  | pyint n =>
    refine Or.inr ⟨n, ?_, rfl⟩
    intro hc
    subst hc
    rw [isNzIntOrNone] at h
    simp at h
  | pybool b => exact Bool.noConfusion h
  | pystr s => exact Bool.noConfusion h
  | pylist xs => exact Bool.noConfusion h
  | pydict kvs => exact Bool.noConfusion h

theorem pyOr_id_cases (a b : PyVal) (ha : isNzIntOrNone a = true) (hb : isNzIntOrNone b = true) :
    pyOr a b = .pynone ∨ ∃ n : Int, n ≠ 0 ∧ pyOr a b = .pyint n := by
  rcases isNzIntOrNone_cases a ha with h1 | ⟨n, hn, h1⟩
  · subst h1
    rcases isNzIntOrNone_cases b hb with h2 | ⟨n, hn, h2⟩
    · subst h2; exact Or.inl rfl
    · subst h2; exact Or.inr ⟨n, hn, rfl⟩
  · subst h1
    refine Or.inr ⟨n, hn, ?_⟩
    have hbeq : (n == 0) = false := beq_eq_false_iff_ne.mpr hn
    simp [pyOr, truthy, hbeq]

theorem addMids_single (wid : PyVal) (n k : Int) (h : pyToInt wid = some n)
    (m : List (Int × List Int)) :
    addMids wid [.pyint k] m = .ok (setdefaultAppend m k n) := by
  have hk : pyToInt (.pyint k) = some k := rfl
  simp [addMids, addMid, hk, h]

theorem dGet_list_hasKeyL (kvs : List (String × PyVal)) (k : String) (xs : List PyVal)
    (h : dGet kvs k = .pylist xs) : hasKeyL kvs k = true := by
  by_cases hk : hasKeyL kvs k = true
  · exact hk
  · rw [hasKeyL_false_dGet k kvs (Bool.not_eq_true _ ▸ hk)] at h
    exact PyVal.noConfusion h

theorem pyIter_or_list (xs : List PyVal) :
    pyIter (pyOr (.pylist xs) (.pylist [])) = .ok xs := by
  cases xs <;> rfl

theorem processWidget_wf (m : List (Int × List Int)) (w : PyVal) (h : wfWidget w = true) :
    processWidget m w = .ok (addPairs m (specWidgetPairs w)) := by
  cases w with
  | pynone => exact Bool.noConfusion h
  | pybool b => exact Bool.noConfusion h
  | pyint n => exact Bool.noConfusion h
  | pystr s => exact Bool.noConfusion h
  | pylist xs => exact Bool.noConfusion h
  | pydict kvs =>
    rw [wfWidget] at h
    simp only [Bool.and_eq_true] at h
    obtain ⟨⟨⟨h1, h2⟩, h3⟩, h4⟩ := h
    simp only [processWidget, pyGet, specWidgetPairs, specWidgetId, specWidgetRefs]
    rcases pyOr_id_cases _ _ h1 h2 with hw | ⟨n, hn, hw⟩
    · rw [hw]
      simp [truthy, addPairs]
    · have hbeq : (n == 0) = false := beq_eq_false_iff_ne.mpr hn
      rw [hw]
      simp only [truthy, hbeq, Bool.not_false, Bool.not_true, if_false]
      have hwid : pyToInt (.pyint n) = some n := rfl
      cases hM : dGet kvs "mediaIds" with
      | pynone =>
        simp only [truthy, Bool.and_false, if_false]
        rcases isNzIntOrNone_cases _ h4 with hS | ⟨k, hk, hS⟩
        · rw [hS]
          simp [truthy, addMids, addPairs]
        · rw [hS]
          have hkbeq : (k == 0) = false := beq_eq_false_iff_ne.mpr hk
          simp [truthy, hkbeq, addMids_single _ n k hwid m, addPairs]
      | pylist xs =>
        rw [hM] at h3
        cases xs with
        | nil =>
          simp only [truthy, List.isEmpty_nil, Bool.not_true, Bool.and_false, if_false]
          rcases isNzIntOrNone_cases _ h4 with hS | ⟨k, hk, hS⟩
          · rw [hS]
            simp [truthy, addMids, addPairs]
          · rw [hS]
            have hkbeq : (k == 0) = false := beq_eq_false_iff_ne.mpr hk
            simp [truthy, hkbeq, addMids_single _ n k hwid m, addPairs]
        | cons x xs0 =>
          rw [dGet_list_hasKeyL kvs "mediaIds" (x :: xs0) hM]
          simp [truthy, hbeq, pyIter_or_list, addMids_ok _ n hwid,
            filterMap_pyToInt_allInt _ h3]
      | pybool b => rw [hM] at h3; exact Bool.noConfusion h3
      | pyint n2 => rw [hM] at h3; exact Bool.noConfusion h3
      | pystr s => rw [hM] at h3; exact Bool.noConfusion h3
      | pydict kvs2 => rw [hM] at h3; exact Bool.noConfusion h3

theorem processWidgets_wf :
    ∀ (ws : List PyVal) (m : List (Int × List Int)),
      (∀ w ∈ ws, wfWidget w = true) →
      processWidgets ws m = .ok (addPairs m (pairsOfWidgets ws)) := by
  intro ws
  induction ws with
  | nil => intro m _; simp [processWidgets, pairsOfWidgets, addPairs]
  | cons w ws ih =>
    intro m h
    rw [processWidgets, processWidget_wf m w (h w (List.mem_cons_self w ws))]
    show processWidgets ws (addPairs m (specWidgetPairs w)) = _
    rw [ih _ (fun x hx => h x (List.mem_cons_of_mem w hx))]
    rw [pairsOfWidgets, addPairs_append]

theorem dGetD_cases (k : String) (d : PyVal) :
    ∀ kvs : List (String × PyVal),
      dGetD kvs k d = dGet kvs k ∨ (dGet kvs k = .pynone ∧ dGetD kvs k d = d) := by
  intro kvs
  induction kvs with
  | nil => exact Or.inr ⟨rfl, rfl⟩
  | cons hd tl ih =>
    obtain ⟨k1, v⟩ := hd
    by_cases h : (k1 == k) = true
    · left; simp [dGet, dGetD, h]
    · simp only [dGet, dGetD, if_neg h]
      exact ih

theorem fieldList_ok (kvs : List (String × PyVal)) (k : String)
    (h : dGet kvs k = .pynone ∨ ∃ xs, dGet kvs k = .pylist xs) :
    pyIter (pyOr (dGetD kvs k (.pylist [])) (.pylist [])) =
      .ok (match dGet kvs k with | .pylist xs => xs | _ => []) := by
  rcases dGetD_cases k (.pylist []) kvs with hd | ⟨hn, hd⟩
  · rw [hd]
    rcases h with h | ⟨xs, h⟩
    · rw [h]; rfl
    · rw [h, pyIter_or_list]
  · rw [hd, hn]
    rfl

theorem collectWidgets_wf (p : PyVal) (h : wfPlaylist p = true) :
    collectWidgets p = .ok (specWidgetList p) ∧ ∀ w ∈ specWidgetList p, wfWidget w = true := by
  cases p with
  | pynone => exact Bool.noConfusion h
  | pybool b => exact Bool.noConfusion h
  | pyint n => exact Bool.noConfusion h
  | pystr s => exact Bool.noConfusion h
  | pylist xs => exact Bool.noConfusion h
  | pydict kvs =>
    rw [wfPlaylist, Bool.and_eq_true] at h
    obtain ⟨hW, hN⟩ := h
    have hWc : dGet kvs "widgets" = .pynone ∨ ∃ xs, dGet kvs "widgets" = .pylist xs := by
      cases hv : dGet kvs "widgets" with
      | pynone => exact Or.inl rfl
      | pylist xs => exact Or.inr ⟨xs, rfl⟩
      | pybool b => rw [hv] at hW; exact Bool.noConfusion hW
      | pyint n => rw [hv] at hW; exact Bool.noConfusion hW
      | pystr s => rw [hv] at hW; exact Bool.noConfusion hW
      | pydict kvs2 => rw [hv] at hW; exact Bool.noConfusion hW
    have hNc : dGet kvs "newWidgets" = .pynone ∨ ∃ xs, dGet kvs "newWidgets" = .pylist xs := by
      cases hv : dGet kvs "newWidgets" with
      | pynone => exact Or.inl rfl
      | pylist xs => exact Or.inr ⟨xs, rfl⟩
      | pybool b => rw [hv] at hN; exact Bool.noConfusion hN
      | pyint n => rw [hv] at hN; exact Bool.noConfusion hN
      | pystr s => rw [hv] at hN; exact Bool.noConfusion hN
      | pydict kvs2 => rw [hv] at hN; exact Bool.noConfusion hN
    constructor
    · simp only [collectWidgets, pyGetD, specWidgetList]
      rw [fieldList_ok kvs "widgets" hWc, fieldList_ok kvs "newWidgets" hNc]
    · intro w hw
      simp only [specWidgetList, List.mem_append] at hw
      rcases hw with hw | hw
      · rcases hWc with hx | ⟨xs, hx⟩
        · rw [hx] at hw; simp at hw
        · rw [hx] at hw
          simp only [] at hw
          rw [hx] at hW
          exact List.all_eq_true.mp hW w hw
      · rcases hNc with hx | ⟨xs, hx⟩
        · rw [hx] at hw; simp at hw
        · rw [hx] at hw
          simp only [] at hw
          rw [hx] at hN
          exact List.all_eq_true.mp hN w hw

theorem deleteStep_deleted (env : ReconcileEnv) (midInt : Int) (s : LoopState) (w : Int)
    (q : Int × Int) (hq : q ∈ (deleteStep env midInt s w).deleted) :
    q ∈ s.deleted ∨ q = (midInt, w) := by
  rw [deleteStep] at hq
  split at hq
  · exact Or.inl hq
  · split at hq
    · simp only [List.mem_append, List.mem_singleton] at hq
      exact hq
    · exact Or.inl hq

theorem deleted_deleteWids (env : ReconcileEnv) (midInt : Int) :
    ∀ (wids : List Int) (s : LoopState) (q : Int × Int),
      q ∈ (deleteWids env midInt wids s).deleted →
      q ∈ s.deleted ∨ (q.1 = midInt ∧ q.2 ∈ wids) := by
  intro wids
  induction wids with
  | nil => intro s q hq; exact Or.inl hq
  | cons w ws ih =>
    intro s q hq
    rcases ih (deleteStep env midInt s w) q hq with h | h
    · rcases deleteStep_deleted env midInt s w q h with h1 | h1
      · exact Or.inl h1
      · right
        rw [h1]
        exact ⟨rfl, List.mem_cons_self w ws⟩
    · right
      exact ⟨h.1, List.mem_cons_of_mem w h.2⟩

theorem deleted_runDeletions (env : ReconcileEnv) (wmap : List (Int × List Int)) :
    ∀ (oids : List PyVal) (s : LoopState) (q : Int × Int),
      q ∈ (runDeletions env wmap oids s).deleted →
      q ∈ s.deleted ∨
        ∃ mid, mid ∈ oids ∧ pyToInt mid = some q.1 ∧ q.2 ∈ mapLookup wmap q.1 := by
  intro oids
  induction oids with
  | nil => intro s q hq; exact Or.inl hq
  | cons mid rest ih =>
    intro s q hq
    rw [runDeletions] at hq
    rcases ih (processOldMid env wmap s mid) q hq with h | h
    · rw [processOldMid] at h
      split at h
      · exact Or.inl h
      · rename_i midInt hm
        split at h
        · exact Or.inl h
        · rcases deleted_deleteWids env midInt _ s q h with h1 | h1
          · exact Or.inl h1
          · right
            refine ⟨mid, List.mem_cons_self mid rest, ?_, ?_⟩
            · rw [hm, h1.1]
            · rw [h1.1]
              exact h1.2
    · rcases h with ⟨mid2, hmem, hrest⟩
      exact Or.inr ⟨mid2, List.mem_cons_of_mem mid hmem, hrest⟩

theorem countA_deleteStep (env : ReconcileEnv) (midInt : Int) (s : LoopState) (w : Int) :
    List.countP isAssignReq (deleteStep env midInt s w).trace =
      List.countP isAssignReq s.trace := by
  rw [deleteStep]
  split
  · simp [List.countP_append, List.countP_cons, isAssignReq]
  · split <;> simp [List.countP_append, List.countP_cons, isAssignReq]

theorem countA_deleteWids (env : ReconcileEnv) (midInt : Int) :
    ∀ (wids : List Int) (s : LoopState),
      List.countP isAssignReq (deleteWids env midInt wids s).trace =
        List.countP isAssignReq s.trace := by
  intro wids
  induction wids with
  | nil => intro s; rfl
  | cons w ws ih =>
    intro s
    rw [deleteWids, ih, countA_deleteStep]

theorem countA_runDeletions (env : ReconcileEnv) (wmap : List (Int × List Int)) :
    ∀ (oids : List PyVal) (s : LoopState),
      List.countP isAssignReq (runDeletions env wmap oids s).trace =
        List.countP isAssignReq s.trace := by
  intro oids
  induction oids with
  | nil => intro s; rfl
  | cons mid rest ih =>
    intro s
    rw [runDeletions, ih, processOldMid]
    split
    · rfl
    · split
      · rfl
      · rw [countA_deleteWids]

theorem pyInFilename_wf_ok (name : String) (v : PyVal)
    (h : (match pyOr v (.pystr "") with
          | .pystr _ => true
          | .pylist _ => true
          | .pydict _ => true
          | _ => false) = true) :
    ∃ b, pyInFilename name v = .ok b := by
  rw [pyInFilename]
  cases hv : pyOr v (.pystr "") with
  | pystr t => exact ⟨_, rfl⟩
  | pylist xs => exact ⟨_, rfl⟩
  | pydict kvs => exact ⟨_, rfl⟩
  | pynone => rw [hv] at h; exact Bool.noConfusion h
  | pybool b => rw [hv] at h; exact Bool.noConfusion h
  | pyint n => rw [hv] at h; exact Bool.noConfusion h

theorem pyMatchName_wf_ok (name : String) (fn nm : PyVal)
    (h : (match pyOr fn (.pystr "") with
          | .pystr _ => true
          | .pylist _ => true
          | .pydict _ => true
          | _ => false) = true) :
    ∃ b, pyMatchName name fn nm = .ok b := by
  rw [pyMatchName]
  by_cases h1 : pyEqStr fn name = true
  · rw [if_pos h1]; exact ⟨_, rfl⟩
  · rw [if_neg h1]
    by_cases h2 : pyEqStr nm name = true
    · rw [if_pos h2]; exact ⟨_, rfl⟩
    · rw [if_neg h2]
      exact pyInFilename_wf_ok name fn h

theorem itemStep_wf_ok (name : String) (acc : List Int) (item : PyVal)
    (h : wfLibItem item = true) : ∃ r, itemStep name acc item = .ok r := by
  cases item with
  | pynone => exact Bool.noConfusion h
  | pybool b => exact Bool.noConfusion h
  | pyint n => exact Bool.noConfusion h
  | pystr s => exact Bool.noConfusion h
  | pylist xs => exact Bool.noConfusion h
  | pydict kvs =>
    rw [wfLibItem, Bool.and_eq_true] at h
    obtain ⟨hmid, hfn⟩ := h
    rw [itemStep]
    by_cases ht : truthy (pyOr (pyOr (dGet kvs "mediaId") (dGet kvs "media_id")) (dGet kvs "id")) = true
    · simp only [ht, Bool.not_true, Bool.false_eq_true, if_false]
      rw [Bool.or_eq_true] at hmid
      have hsome : (pyToInt (pyOr (pyOr (dGet kvs "mediaId") (dGet kvs "media_id")) (dGet kvs "id"))).isSome = true := by
        rcases hmid with hc | hc
        · rw [ht] at hc; exact Bool.noConfusion hc
        · exact hc
      obtain ⟨v, hv⟩ := Option.isSome_iff_exists.mp hsome
      obtain ⟨b, hb⟩ := pyMatchName_wf_ok name (dGet kvs "fileName") (dGet kvs "name") hfn
      simp only [hb]
      cases b with
      | false => exact ⟨_, rfl⟩
      | true => simp only [hv]; exact ⟨_, rfl⟩
    · rw [Bool.not_eq_true] at ht
      simp only [ht, Bool.not_false, if_true]
      exact ⟨_, rfl⟩

theorem scanItems_wf_ok (name : String) :
    ∀ (items : List PyVal) (acc : List Int),
      (∀ i ∈ items, wfLibItem i = true) →
      ∃ r, scanItems name acc items = .ok r := by
  intro items
  induction items with
  | nil => intro acc _; exact ⟨acc, rfl⟩
  | cons item rest ih =>
    intro acc h
    obtain ⟨r1, hr1⟩ := itemStep_wf_ok name acc item (h item (List.mem_cons_self item rest))
    rw [scanItems]
    simp only [hr1]
    exact ih r1 (fun i hi => h i (List.mem_cons_of_mem item hi))

theorem libAttempt_wf_ok (env : LocatorEnv) (name param : String) (acc : List Int)
    (h : wfLibResp (env.resp param name) = true) :
    ∃ r, libAttempt env name param acc = .ok r := by
  rw [libAttempt]
  cases hr : env.resp param name with
  | err e => exact ⟨_, rfl⟩
  | ok r =>
    rw [hr] at h
    simp only [wfLibResp] at h
    by_cases hst : (r.status == 200) = true
    · simp only [hst, Bool.not_true, Bool.false_eq_true, if_false] at h ⊢
      cases hb : r.body with
      | none => exact ⟨_, rfl⟩
      | some data =>
        rw [hb] at h
        cases data with
        | pylist items =>
          obtain ⟨r2, hr2⟩ := scanItems_wf_ok name items acc (List.all_eq_true.mp h)
          simp only [pyIter, hr2]
          exact ⟨_, rfl⟩
        | pynone => exact Bool.noConfusion h
        | pybool b => exact Bool.noConfusion h
        | pyint n => exact Bool.noConfusion h
        | pystr s => exact Bool.noConfusion h
        | pydict kvs => exact Bool.noConfusion h
    · rw [Bool.not_eq_true] at hst
      simp only [hst, Bool.not_false, if_true]
      exact ⟨_, rfl⟩

theorem tryStrategies_wf_ok (env : LocatorEnv) (name : String)
    (h : ∀ param, wfLibResp (env.resp param name) = true) :
    ∀ (params : List String) (acc : List Int) (tr : List Request),
      ∃ r, tryStrategies env name params acc tr = .ok r := by
  intro params
  induction params with
  | nil => intro acc tr; exact ⟨_, rfl⟩
  | cons param rest ih =>
    intro acc tr
    obtain ⟨r1, hr1⟩ := libAttempt_wf_ok env name param acc (h param)
    rw [tryStrategies]
    cases r1 with
    | none =>
      simp only [hr1]
      exact ih acc (tr ++ [Request.libSearch param name])
    | some acc1 =>
      simp only [hr1]
      by_cases he : acc1.isEmpty = true
      · rw [if_pos he]
        exact ih acc1 (tr ++ [Request.libSearch param name])
      · rw [if_neg he]
        exact ⟨_, rfl⟩

theorem findGo_wf_ok (env : LocatorEnv)
    (h : ∀ param name, wfLibResp (env.resp param name) = true) :
    ∀ (filenames : List String) (res : List (String × List Int)) (tr : List Request),
      ∃ r, findGo env filenames res tr = .ok r := by
  intro filenames
  induction filenames with
  | nil => intro res tr; exact ⟨_, rfl⟩
  | cons name rest ih =>
    intro res tr
    obtain ⟨⟨ids, tr1⟩, hr1⟩ := tryStrategies_wf_ok env name (fun p => h p name) strategyParams [] tr
    rw [findGo]
    simp only [hr1]
    exact ih (dictSet (dictSet res name []) name ids) tr1

/-- Claim C1: for every well-formed fetched playlist object, the reconciler
builds one unified mapping from mediaId to the widgetIds referencing it,
scanning widgets under both `widgets` and `newWidgets` and reading media
references from the plural `mediaIds` list or the singular `mediaId` field:
the list recorded for each media id is exactly the ordered list of widget
ids referencing it in the scan, so no entry is lost and no duplicate widget
id is dropped. -/
theorem c1_mapping_merge (p : PyVal) (h : wfPlaylist p = true) :
    ∃ wmap, buildWidgetMap p = .ok wmap ∧
      ∀ mid : Int, mapLookup wmap mid =
        ((specPairs p).filter (fun q => q.1 == mid)).map Prod.snd := by
  obtain ⟨hc, hwf⟩ := collectWidgets_wf p h
  refine ⟨addPairs [] (specPairs p), ?_, ?_⟩
  · rw [buildWidgetMap, hc]
    show processWidgets (specWidgetList p) [] = _
    rw [processWidgets_wf _ _ hwf]
    rfl
  · intro mid
    rw [specPairs, mapLookup_addPairs mid (pairsOfWidgets (specWidgetList p)) []]
    rfl

/-- Witness for C1 at a playlist mixing the plural field under `widgets`
and the singular field (with the `id` variant) under `newWidgets`. -/
theorem c1_mapping_merge_witness :
    wfPlaylist mixedPlaylist = true ∧
      ∃ wmap, buildWidgetMap mixedPlaylist = .ok wmap ∧
        ∀ mid : Int, mapLookup wmap mid =
          ((specPairs mixedPlaylist).filter (fun q => q.1 == mid)).map Prod.snd :=
  ⟨by decide, c1_mapping_merge mixedPlaylist (by decide)⟩

/-- Claim C2 counterexample: a 200 response whose record matches the queried
name but carries the truthy non-coercible identifier "abc" makes
`find_media_ids_for_names` raise (`int(mid)` at utils.py line 169 is outside
the `try` block), so the Locator is not total. -/
theorem c2_counterexample :
    exceptIsOk (find_media_ids_for_names envBadId ["a"]) = false := by rfl

/-- Claim C2 amended: the Locator is total provided every record delivered in
a 200 body is a dict whose truthy identifier is integer-coercible and whose
`fileName` value is a string/list/dict; records with a falsy identifier are
skipped, but a matched record whose truthy identifier fails coercion raises
out of the function. -/
theorem c2_total_on_wf (env : LocatorEnv) (filenames : List String)
    (h : ∀ param name, wfLibResp (env.resp param name) = true) :
    exceptIsOk (find_media_ids_for_names env filenames) = true := by
  obtain ⟨r, hr⟩ := findGo_wf_ok env h filenames [] []
  rw [find_media_ids_for_names, hr]
  rfl

/-- Witness for C2 on an environment whose every response is well-formed. -/
theorem c2_total_on_wf_witness :
    (∀ param name, wfLibResp (envGoodLib.resp param name) = true) ∧
      exceptIsOk (find_media_ids_for_names envGoodLib ["a"]) = true :=
  ⟨fun _ _ => rfl, c2_total_on_wf envGoodLib ["a"] (fun _ _ => rfl)⟩

/-- Claim C3 counterexample: a widget whose `widgetId` is the truthy
non-coercible string "x" and whose `mediaIds` list holds a coercible entry
makes the mapping-building step raise (`int(wid)` at utils.py line 65 is
outside the `try` block) instead of silently skipping. -/
theorem c3_counterexample :
    buildWidgetMap badWidPlaylist = .error "ValueError: invalid literal for int()" := by rfl

/-- Claim C3 amended: a widget whose identifier chain is falsy is skipped
entirely, and non-integer entries of a `mediaIds` list are silently skipped
(only they are lost) when the widget identifier is a nonzero integer; but a
truthy non-coercible widget identifier combined with a coercible media entry
raises. -/
theorem c3_amended :
    (∀ (m : List (Int × List Int)) (kvs : List (String × PyVal)),
        truthy (pyOr (dGet kvs "widgetId") (dGet kvs "id")) = false →
        processWidget m (.pydict kvs) = .ok m)
    ∧ (∀ (m : List (Int × List Int)) (wid : Int) (entries : List PyVal), wid ≠ 0 →
        processWidget m (.pydict [("widgetId", .pyint wid), ("mediaIds", .pylist entries)])
          = .ok (addPairs m ((entries.filterMap pyToInt).map (fun k => (k, wid))))) := by
  constructor
  · intro m kvs hf
    rw [processWidget]
    simp only [pyGet, hf, Bool.not_false, if_true]
  · intro m wid entries hw
    have hbeq : (wid == 0) = false := beq_eq_false_iff_ne.mpr hw
    have hwid : pyToInt (.pyint wid) = some wid := rfl
    cases entries with
    | nil =>
      simp [processWidget, pyGet, dGet, hasKeyL, truthy, hbeq, addMids, addPairs]
    | cons e es =>
      simp [processWidget, pyGet, dGet, hasKeyL, pyOr, truthy, hbeq, pyIter,
        addMids_ok _ wid hwid]

/-- Witness for C3 on a widget map step skipping the entry "zz". -/
theorem c3_amended_witness :
    (7 : Int) ≠ 0 ∧
      processWidget [] (.pydict [("widgetId", .pyint 7), ("mediaIds", .pylist [.pystr "zz", .pyint 3])])
        = .ok (addPairs [] (([PyVal.pystr "zz", PyVal.pyint 3].filterMap pyToInt).map
            (fun k => (k, (7 : Int))))) :=
  ⟨by decide, c3_amended.2 [] 7 [.pystr "zz", .pyint 3] (by decide)⟩

/-- Claim C4 counterexample: a 304 status is non-2xx yet `raise_for_status`
does not raise on it; with a decoded non-empty list body the call does not
return early: it records two notes instead of exactly one and issues an
assignment request. -/
theorem c4_counterexample :
    (assign_media_to_playlist env304 1 [.pyint 5] []).map
        (fun x => (x.1.deleted, x.1.assigned.isSome, x.1.notes.length,
                   List.countP isAssignReq x.2))
      = .ok ([], true, 2, 1) := by rfl

/-- Claim C4 amended: whenever the initial playlist fetch raises (request
failure, 4xx/5xx status — what `raise_for_status` raises on — or JSON decode
failure) or the decoded response is not a non-empty list, the call returns
immediately with no deletions, no assignment, exactly one diagnostic note,
and only the fetch request issued. -/
theorem c4_early_fetch_exit (env : ReconcileEnv) (pid : Int) (nids oids : List PyVal)
    (h : earlyFetchFailure env.fetchResult = true) :
    ∃ note, assign_media_to_playlist env pid nids oids =
      .ok ({ deleted := [], assigned := none, notes := [note] },
           [Request.fetchPlaylist pid]) := by
  rw [assign_media_to_playlist]
  rw [earlyFetchFailure] at h
  cases hf : respOutcome env.fetchResult with
  | error e => exact ⟨_, rfl⟩
  | ok v =>
    rw [hf] at h
    cases v with
    | pylist xs =>
      cases xs with
      | nil => exact ⟨_, rfl⟩
      | cons p rest => exact Bool.noConfusion h
    | pynone => exact ⟨_, rfl⟩
    | pybool b => exact ⟨_, rfl⟩
    | pyint n => exact ⟨_, rfl⟩
    | pystr s => exact ⟨_, rfl⟩
    | pydict kvs => exact ⟨_, rfl⟩

/-- Witness for C4 on a request-level fetch failure. -/
theorem c4_early_fetch_exit_witness :
    earlyFetchFailure envFetchErr.fetchResult = true ∧
      ∃ note, assign_media_to_playlist envFetchErr 1 [.pyint 5] [.pyint 3] =
        .ok ({ deleted := [], assigned := none, notes := [note] },
             [Request.fetchPlaylist 1]) :=
  ⟨rfl, c4_early_fetch_exit envFetchErr 1 [.pyint 5] [.pyint 3] rfl⟩

/-- Claim C5: in the deletion loop, a failed delete (request-level error or a
status outside 200/204) only records its failure note and processing
continues with the next widget, while a 200/204 response appends its
(mediaId, widgetId) pair: with widget `a` failing and widget `b` succeeding,
the deleted pairs gain exactly `(midInt, b)`, the notes gain `a`'s failure
note followed by `b`'s success note, and both delete requests are issued. -/
theorem c5_failure_isolation (env : ReconcileEnv) (midInt a b : Int) (s : LoopState)
    (rB : Response)
    (hA : deleteFailed (env.deleteResult s.calls) = true)
    (hB : env.deleteResult (s.calls + 1) = .ok rB)
    (hS : rB.status = 200 ∨ rB.status = 204) :
    (deleteWids env midInt [a, b] s).deleted = s.deleted ++ [(midInt, b)]
    ∧ (deleteWids env midInt [a, b] s).notes
        = s.notes ++ [failNoteOf midInt a (env.deleteResult s.calls), delOkNote b midInt]
    ∧ (deleteWids env midInt [a, b] s).trace
        = s.trace ++ [Request.deleteWidget a, Request.deleteWidget b] := by
  have hs2 : (rB.status == 200 || rB.status == 204) = true := by
    rcases hS with h | h <;> rw [h] <;> rfl
  have hA1 : deleteStep env midInt s a =
      { s with
          calls := s.calls + 1,
          trace := s.trace ++ [Request.deleteWidget a],
          notes := s.notes ++ [failNoteOf midInt a (env.deleteResult s.calls)] } := by
    rw [deleteStep, failNoteOf.eq_def]
    cases hdA : env.deleteResult s.calls with
    | err e => rfl
    | ok r =>
      rw [hdA] at hA
      simp only [deleteFailed, Bool.not_eq_true'] at hA
      simp [hA]
  have hfin : deleteWids env midInt [a, b] s =
      deleteStep env midInt (deleteStep env midInt s a) b := rfl
  rw [hfin, hA1, deleteStep]
  simp only [hB]
  rw [if_pos hs2]
  refine ⟨rfl, ?_, ?_⟩ <;> simp [List.append_assoc]

/-- Witness for C5: the first delete attempt fails at request level, the
second succeeds with 204, and only the second pair is recorded. -/
theorem c5_failure_isolation_witness :
    deleteFailed (envDelMixed.deleteResult (0 : Nat)) = true ∧
      envDelMixed.deleteResult (0 + 1) = .ok { status := 204, body := some .pynone, text := "" } ∧
      (deleteWids envDelMixed 7 [10, 11]
          { deleted := [], notes := [], trace := [], calls := 0 }).deleted
        = [] ++ [((7 : Int), (11 : Int))] :=
  ⟨rfl, rfl,
    (c5_failure_isolation envDelMixed 7 10 11 { deleted := [], notes := [], trace := [], calls := 0 }
      { status := 204, body := some .pynone, text := "" } rfl rfl (Or.inr rfl)).1⟩

/-- Claim C6: with a non-empty widget mapping and non-empty new media,
exactly one assign call is issued, after the deletion loop; an assign
failure returns immediately with every successful deletion kept (no
rollback), a null assignment and all accumulated notes plus the failure
note; an assign success returns the response payload as the assignment. -/
theorem c6_assign_after_deletions (env : ReconcileEnv) (pid : Int) (nids oids : List PyVal)
    (p : PyVal) (rest : List PyVal) (wmap : List (Int × List Int))
    (hf : respOutcome env.fetchResult = .ok (.pylist (p :: rest)))
    (hm : buildWidgetMap p = .ok wmap)
    (hw : wmap ≠ [])
    (hn : nids ≠ []) :
    (∀ e, respOutcome env.assignResult = .error e →
        assign_media_to_playlist env pid nids oids =
          .ok ({ deleted := (delPhase env pid oids wmap).deleted, assigned := none,
                 notes := (delPhase env pid oids wmap).notes ++ [assignFailNote e] },
               (delPhase env pid oids wmap).trace ++ [assignReqFor pid nids]))
    ∧ (∀ payload, respOutcome env.assignResult = .ok payload →
        assign_media_to_playlist env pid nids oids =
          .ok ({ deleted := (delPhase env pid oids wmap).deleted, assigned := some payload,
                 notes := (delPhase env pid oids wmap).notes ++ [assignOkNote pid] },
               (delPhase env pid oids wmap).trace ++ [assignReqFor pid nids]))
    ∧ List.countP isAssignReq
        ((delPhase env pid oids wmap).trace ++ [assignReqFor pid nids]) = 1 := by
  have hwe : wmap.isEmpty = false := by
    cases wmap with
    | nil => exact absurd rfl hw
    | cons q qs => rfl
  have hne : nids.isEmpty = false := by
    cases nids with
    | nil => exact absurd rfl hn
    | cons q qs => rfl
  have h1 : assign_media_to_playlist env pid nids oids = afterParse env pid nids oids p := by
    rw [assign_media_to_playlist, hf]
  have h2 : afterParse env pid nids oids p = .ok (branchNonEmpty env pid nids oids wmap) := by
    rw [afterParse, hm]
    show Except.ok (if wmap.isEmpty then branchEmptyMap env pid nids
      else branchNonEmpty env pid nids oids wmap) = _
    rw [hwe]
    simp
  refine ⟨?_, ?_, ?_⟩
  · intro e he
    rw [h1, h2, branchNonEmpty]
    simp [hne, he]
  · intro payload hp
    rw [h1, h2, branchNonEmpty]
    simp [hne, hp]
  · rw [delPhase, List.countP_append, countA_runDeletions]
    simp [initLoopState, isAssignReq, assignReqFor, List.countP_cons]

/-- Witness for C6 on a playlist with one deletable widget and one new
media id: the trace carries exactly one assign request. -/
theorem c6_assign_after_deletions_witness :
    respOutcome envOneWidget.fetchResult = .ok (.pylist [oneWidgetPlaylist]) ∧
      buildWidgetMap oneWidgetPlaylist = .ok [((1 : Int), [(10 : Int)])] ∧
      List.countP isAssignReq
        ((delPhase envOneWidget 1 [.pyint 1] [((1 : Int), [(10 : Int)])]).trace
          ++ [assignReqFor 1 [.pyint 5]]) = 1 :=
  ⟨rfl, rfl,
    (c6_assign_after_deletions envOneWidget 1 [.pyint 5] [.pyint 1] oneWidgetPlaylist []
      [((1 : Int), [(10 : Int)])] rfl rfl (by simp) (by simp)).2.2⟩

/-- Claim C7: when the built widget mapping is empty, no deletion request is
issued regardless of oldMediaIds; with non-empty newMediaIds exactly one
assign call with body containing the new media ids is made and its payload
or failure note is returned, and with empty newMediaIds nothing is assigned
and the call returns empty deletions with a null assignment. -/
theorem c7_empty_mapping (env : ReconcileEnv) (pid : Int) (nids oids : List PyVal)
    (p : PyVal) (rest : List PyVal)
    (hf : respOutcome env.fetchResult = .ok (.pylist (p :: rest)))
    (hm : buildWidgetMap p = .ok []) :
    (nids = [] →
        assign_media_to_playlist env pid nids oids =
          .ok ({ deleted := [], assigned := none,
                 notes := [noWidgetsNote pid, nothingToAssignNote] },
               [Request.fetchPlaylist pid]))
    ∧ (∀ payload, nids ≠ [] → respOutcome env.assignResult = .ok payload →
        assign_media_to_playlist env pid nids oids =
          .ok ({ deleted := [], assigned := some payload,
                 notes := [noWidgetsNote pid, assignCreatedNote pid] },
               [Request.fetchPlaylist pid, assignReqFor pid nids]))
    ∧ (∀ e, nids ≠ [] → respOutcome env.assignResult = .error e →
        assign_media_to_playlist env pid nids oids =
          .ok ({ deleted := [], assigned := none,
                 notes := [noWidgetsNote pid, assignFailNote e] },
               [Request.fetchPlaylist pid, assignReqFor pid nids]))
    ∧ (∀ out tr, assign_media_to_playlist env pid nids oids = .ok (out, tr) →
        List.countP isDeleteReq tr = 0) := by
  have h1 : assign_media_to_playlist env pid nids oids = .ok (branchEmptyMap env pid nids) := by
    rw [assign_media_to_playlist, hf]
    show afterParse env pid nids oids p = _
    rw [afterParse, hm]
    rfl
  refine ⟨?_, ?_, ?_, ?_⟩
  · intro hnil
    subst hnil
    rw [h1, branchEmptyMap]
    rfl
  · intro payload hne2 ha
    have hnb : nids.isEmpty = false := by
      cases nids with
      | nil => exact absurd rfl hne2
      | cons q qs => rfl
    rw [h1, branchEmptyMap]
    simp [hnb, ha]
  · intro e hne2 ha
    have hnb : nids.isEmpty = false := by
      cases nids with
      | nil => exact absurd rfl hne2
      | cons q qs => rfl
    rw [h1, branchEmptyMap]
    simp [hnb, ha]
  · intro out tr htr
    rw [h1] at htr
    have h3 := Except.ok.inj htr
    have h4 : tr = (branchEmptyMap env pid nids).2 := by rw [h3]
    rw [h4, branchEmptyMap]
    by_cases hnb : nids.isEmpty = true
    · rw [if_pos hnb]
      simp [isDeleteReq, List.countP_cons]
    · rw [if_neg hnb]
      cases respOutcome env.assignResult with
      | ok payload => simp [isDeleteReq, assignReqFor, List.countP_cons]
      | error e => simp [isDeleteReq, assignReqFor, List.countP_cons]

/-- Witness for C7: the spec's example scenario, an empty-mapping playlist
with newMediaIds `[5, 6]` and a non-empty oldMediaIds. -/
theorem c7_empty_mapping_witness :
    respOutcome envNoWidgets.fetchResult = .ok (.pylist [.pydict []]) ∧
      buildWidgetMap (.pydict []) = .ok [] ∧
      assign_media_to_playlist envNoWidgets 1 [.pyint 5, .pyint 6] [.pyint 3] =
        .ok ({ deleted := [], assigned := some (.pydict [("ok", .pybool true)]),
               notes := [noWidgetsNote 1, assignCreatedNote 1] },
             [Request.fetchPlaylist 1, assignReqFor 1 [.pyint 5, .pyint 6]]) :=
  ⟨rfl, rfl,
    (c7_empty_mapping envNoWidgets 1 [.pyint 5, .pyint 6] [.pyint 3] (.pydict []) [] rfl rfl).2.1
      (.pydict [("ok", .pybool true)]) (by simp) rfl⟩

/-- Claim C8 counterexample: the by-filename strategy returns a record that
matches the queried name (its fileName equals "a") but lacks an identifier,
so nothing is contributed; contrary to the claim, the by-name strategy is
still attempted and supplies the result, as the second issued library query
in the trace shows. -/
theorem c8_counterexample :
    find_media_ids_for_names envMatchNoId ["a"] =
      .ok ([("a", [7])],
           [Request.libSearch "fileName" "a", Request.libSearch "name" "a"]) := by rfl

/-- Claim C8 amended: the strategies run in the fixed order by-filename,
by-name, by-substring-search, stopping at the first strategy that
contributes at least one media id (a record that matches the name AND
carries a truthy identifier); strategies after that one are never attempted,
and strategies that complete without contributing do not prevent a later
strategy from supplying the result. -/
theorem c8_priority_order (env : LocatorEnv) (name : String) (tr : List Request) :
    (∀ acc1, libAttempt env name "fileName" [] = .ok (some acc1) → acc1 ≠ [] →
        tryStrategies env name strategyParams [] tr =
          .ok (acc1, tr ++ [Request.libSearch "fileName" name]))
    ∧ (∀ acc3,
        (libAttempt env name "fileName" [] = .ok none ∨
          libAttempt env name "fileName" [] = .ok (some [])) →
        (libAttempt env name "name" [] = .ok none ∨
          libAttempt env name "name" [] = .ok (some [])) →
        libAttempt env name "search" [] = .ok (some acc3) →
        tryStrategies env name strategyParams [] tr =
          .ok (acc3, tr ++ [Request.libSearch "fileName" name, Request.libSearch "name" name,
                            Request.libSearch "search" name])) := by
  constructor
  · intro acc1 h1 hne
    have hnb : acc1.isEmpty = false := by
      cases acc1 with
      | nil => exact absurd rfl hne
      | cons q qs => rfl
    rw [strategyParams, tryStrategies]
    simp [h1, hnb]
  · intro acc3 h1 h2 h3
    have step1 : tryStrategies env name strategyParams [] tr =
        tryStrategies env name ["name", "search"] []
          (tr ++ [Request.libSearch "fileName" name]) := by
      rw [strategyParams, tryStrategies]
      rcases h1 with h1 | h1 <;> simp [h1]
    have step2 : tryStrategies env name ["name", "search"] []
          (tr ++ [Request.libSearch "fileName" name]) =
        tryStrategies env name ["search"] []
          (tr ++ [Request.libSearch "fileName" name, Request.libSearch "name" name]) := by
      rw [tryStrategies]
      rcases h2 with h2 | h2 <;> simp [h2, List.append_assoc]
    have step3 : tryStrategies env name ["search"] []
          (tr ++ [Request.libSearch "fileName" name, Request.libSearch "name" name]) =
        .ok (acc3, tr ++ [Request.libSearch "fileName" name, Request.libSearch "name" name,
                          Request.libSearch "search" name]) := by
      rw [tryStrategies]
      simp only [h3]
      by_cases he : acc3.isEmpty = true
      · rw [if_pos he, tryStrategies]
        simp [List.append_assoc]
      · rw [if_neg he]
        simp [List.append_assoc]
    rw [step1, step2, step3]

/-- Witness for C8: the spec's fallback scenario, a name matched only as a
substring by the search strategy after the first two strategies return
empty. -/
theorem c8_priority_order_witness :
    libAttempt envFallback "b" "search" [] = .ok (some [9]) ∧
      tryStrategies envFallback "b" strategyParams [] [] =
        .ok ([9], [Request.libSearch "fileName" "b", Request.libSearch "name" "b",
                   Request.libSearch "search" "b"]) :=
  ⟨rfl, (c8_priority_order envFallback "b" []).2 [9] (Or.inr rfl) (Or.inr rfl) rfl⟩

theorem branchEmptyMap_deleted (env : ReconcileEnv) (pid : Int) (nids : List PyVal) :
    (branchEmptyMap env pid nids).1.deleted = [] := by
  rw [branchEmptyMap]
  by_cases hnb : nids.isEmpty = true
  · rw [if_pos hnb]
  · rw [if_neg hnb]
    cases respOutcome env.assignResult with
    | ok payload => rfl
    | error e => rfl

theorem branchNonEmpty_deleted (env : ReconcileEnv) (pid : Int) (nids oids : List PyVal)
    (wmap : List (Int × List Int)) :
    (branchNonEmpty env pid nids oids wmap).1.deleted = (delPhase env pid oids wmap).deleted := by
  rw [branchNonEmpty]
  by_cases hnb : nids.isEmpty = true
  · rw [if_pos hnb]
  · rw [if_neg hnb]
    cases respOutcome env.assignResult with
    | ok payload => rfl
    | error e => rfl

theorem deleted_in_map (env : ReconcileEnv) (pid : Int) (nids oids : List PyVal)
    (p : PyVal) (rest : List PyVal) (wmap : List (Int × List Int)) (out : ReconcileOutput)
    (tr : List Request)
    (hf : respOutcome env.fetchResult = .ok (.pylist (p :: rest)))
    (hm : buildWidgetMap p = .ok wmap)
    (hr : assign_media_to_playlist env pid nids oids = .ok (out, tr)) :
    ∀ q ∈ out.deleted,
      (∃ mid, mid ∈ oids ∧ pyToInt mid = some q.1) ∧ q.2 ∈ mapLookup wmap q.1 := by
  intro q hq
  rw [assign_media_to_playlist, hf] at hr
  have hr2 : afterParse env pid nids oids p = .ok (out, tr) := hr
  rw [afterParse, hm] at hr2
  have hr3 : (Except.ok
      (if wmap.isEmpty then branchEmptyMap env pid nids
       else branchNonEmpty env pid nids oids wmap) :
        Except String (ReconcileOutput × List Request)) = .ok (out, tr) := hr2
  have h4 := Except.ok.inj hr3
  have h5 : out.deleted = (if wmap.isEmpty then branchEmptyMap env pid nids
      else branchNonEmpty env pid nids oids wmap).1.deleted := by
    rw [h4]
  by_cases hwe : wmap.isEmpty = true
  · rw [if_pos hwe, branchEmptyMap_deleted] at h5
    rw [h5] at hq
    exact absurd hq (List.not_mem_nil q)
  · rw [if_neg hwe, branchNonEmpty_deleted] at h5
    rw [h5] at hq
    rw [delPhase] at hq
    rcases deleted_runDeletions env wmap oids (initLoopState pid wmap) q hq with h | h
    · exact absurd h (List.not_mem_nil q)
    · obtain ⟨mid, hmem, hco, hlk⟩ := h
      exact ⟨⟨mid, hmem, hco⟩, hlk⟩

/-- Claim C9: an identifier equal to the integer 0 is treated as missing:
a widget whose widgetId is 0 (id absent or 0) contributes nothing to the
widget map; a widget whose singular mediaId is 0 (with no truthy plural
field) is not mapped; a library record whose mediaId is 0 falls back to its
media_id field, and is skipped entirely when all three identifier fields
are 0 or absent; and every deleted pair's widget id comes from the built
map, so a widget contributing nothing is never deleted. -/
theorem c9_zero_identifier_as_missing :
    (∀ (m : List (Int × List Int)) (kvs : List (String × PyVal)),
        dGet kvs "widgetId" = .pyint 0 →
        (dGet kvs "id" = .pynone ∨ dGet kvs "id" = .pyint 0) →
        processWidget m (.pydict kvs) = .ok m)
    ∧ (∀ (m : List (Int × List Int)) (kvs : List (String × PyVal)),
        truthy (dGet kvs "mediaIds") = false →
        dGet kvs "mediaId" = .pyint 0 →
        processWidget m (.pydict kvs) = .ok m)
    ∧ (∀ (name : String) (acc : List Int) (kvs : List (String × PyVal)) (k : Int),
        dGet kvs "mediaId" = .pyint 0 → dGet kvs "media_id" = .pyint k → k ≠ 0 →
        pyEqStr (dGet kvs "fileName") name = true →
        itemStep name acc (.pydict kvs) = .ok (acc ++ [k]))
    ∧ (∀ (name : String) (acc : List Int) (kvs : List (String × PyVal)),
        (dGet kvs "mediaId" = .pynone ∨ dGet kvs "mediaId" = .pyint 0) →
        (dGet kvs "media_id" = .pynone ∨ dGet kvs "media_id" = .pyint 0) →
        (dGet kvs "id" = .pynone ∨ dGet kvs "id" = .pyint 0) →
        itemStep name acc (.pydict kvs) = .ok acc)
    ∧ (∀ (env : ReconcileEnv) (pid : Int) (nids oids : List PyVal) (p : PyVal)
        (rest : List PyVal) (wmap : List (Int × List Int)) (out : ReconcileOutput)
        (tr : List Request),
        respOutcome env.fetchResult = .ok (.pylist (p :: rest)) →
        buildWidgetMap p = .ok wmap →
        assign_media_to_playlist env pid nids oids = .ok (out, tr) →
        ∀ q ∈ out.deleted, q.2 ∈ mapLookup wmap q.1) := by
  refine ⟨?_, ?_, ?_, ?_, ?_⟩
  · intro m kvs h1 h2
    rw [processWidget]
    simp only [pyGet]
    rcases h2 with h2 | h2 <;> simp [h1, h2, pyOr, truthy]
  · intro m kvs h1 h2
    rw [processWidget]
    simp only [pyGet]
    by_cases ht : truthy (pyOr (dGet kvs "widgetId") (dGet kvs "id")) = true
    · have hcond : (hasKeyL kvs "mediaIds" && truthy (dGet kvs "mediaIds")) = false := by
        rw [h1, Bool.and_false]
      simp only [ht, Bool.not_true, Bool.false_eq_true, if_false, hcond, h2]
      simp [truthy, addMids]
    · rw [Bool.not_eq_true] at ht
      simp [ht]
  · intro name acc kvs k h1 h2 hk hfn
    rw [itemStep]
    have hkb : (k == 0) = false := beq_eq_false_iff_ne.mpr hk
    have hmid : pyOr (pyOr (dGet kvs "mediaId") (dGet kvs "media_id")) (dGet kvs "id")
        = .pyint k := by
      rw [h1, h2]
      simp [pyOr, truthy, hkb]
    rw [hmid]
    simp [truthy, hkb, pyMatchName, hfn, pyToInt]
  · intro name acc kvs h1 h2 h3
    rw [itemStep]
    have hmid : truthy (pyOr (pyOr (dGet kvs "mediaId") (dGet kvs "media_id")) (dGet kvs "id"))
        = false := by
      rcases h1 with h1 | h1 <;> rcases h2 with h2 | h2 <;> rcases h3 with h3 | h3 <;>
        simp [h1, h2, h3, pyOr, truthy]
    simp [hmid]
  · intro env pid nids oids p rest wmap out tr hf hm hr q hq
    exact (deleted_in_map env pid nids oids p rest wmap out tr hf hm hr q hq).2

/-- Witness for C9 at a widget whose widgetId is the integer 0. -/
theorem c9_zero_identifier_witness :
    dGet [("widgetId", PyVal.pyint 0)] "widgetId" = .pyint 0 ∧
      processWidget [] (.pydict [("widgetId", .pyint 0)]) = .ok [] :=
  ⟨rfl, c9_zero_identifier_as_missing.1 [] [("widgetId", .pyint 0)] rfl (Or.inl rfl)⟩

/-- Claim C10: every pair (m, w) in the returned deletedPairs has m equal to
the integer coercion of some element of oldMediaIds and w among the widget
ids mapped to m in the widget map built from the fetched playlist;
consequently deletedPairs is empty whenever oldMediaIds or the widget map is
empty. -/
theorem c10_deleted_pairs_sound (env : ReconcileEnv) (pid : Int) (nids oids : List PyVal)
    (p : PyVal) (rest : List PyVal) (wmap : List (Int × List Int)) (out : ReconcileOutput)
    (tr : List Request)
    (hf : respOutcome env.fetchResult = .ok (.pylist (p :: rest)))
    (hm : buildWidgetMap p = .ok wmap)
    (hr : assign_media_to_playlist env pid nids oids = .ok (out, tr)) :
    (∀ q ∈ out.deleted,
        (∃ mid, mid ∈ oids ∧ pyToInt mid = some q.1) ∧ q.2 ∈ mapLookup wmap q.1)
    ∧ (oids = [] → out.deleted = [])
    ∧ (wmap = [] → out.deleted = []) := by
  refine ⟨deleted_in_map env pid nids oids p rest wmap out tr hf hm hr, ?_, ?_⟩
  · intro ho
    subst ho
    rw [List.eq_nil_iff_forall_not_mem]
    intro q hq
    obtain ⟨⟨mid, hmem, _⟩, _⟩ := deleted_in_map env pid nids [] p rest wmap out tr hf hm hr q hq
    exact absurd hmem (List.not_mem_nil mid)
  · intro hwmap
    subst hwmap
    rw [List.eq_nil_iff_forall_not_mem]
    intro q hq
    obtain ⟨_, h2⟩ := deleted_in_map env pid nids oids p rest [] out tr hf hm hr q hq
    exact absurd h2 (List.not_mem_nil q.2)

/-- Witness for C10 on a run that deletes nothing (empty oldMediaIds). -/
theorem c10_deleted_pairs_sound_witness :
    respOutcome envOneWidget.fetchResult = .ok (.pylist [oneWidgetPlaylist]) ∧
      buildWidgetMap oneWidgetPlaylist = .ok [((1 : Int), [(10 : Int)])] ∧
      assign_media_to_playlist envOneWidget 1 [] [] =
        .ok ({ deleted := [], assigned := none,
               notes := [discoveredNote 1 [((1 : Int), [(10 : Int)])]] },
             [Request.fetchPlaylist 1]) ∧
      ({ deleted := [], assigned := none,
         notes := [discoveredNote 1 [((1 : Int), [(10 : Int)])]] } : ReconcileOutput).deleted
        = [] :=
  ⟨rfl, rfl, rfl,
    (c10_deleted_pairs_sound envOneWidget 1 [] [] oneWidgetPlaylist []
      [((1 : Int), [(10 : Int)])]
      { deleted := [], assigned := none,
        notes := [discoveredNote 1 [((1 : Int), [(10 : Int)])]] }
      [Request.fetchPlaylist 1] rfl rfl rfl).2.1 rfl⟩
